import Mathlib

/-!
Verification of the rustclr CLR-hosting library (joaoviictorti/rustclr).

This file gives a shallow embedding of the parts of the code that the
specification's claims are about:

* the UTF-16 wide-string handling behind identity strings
  (`String::encode_utf16`, `String::from_utf16` used by
  `windows_core::PCWSTR::to_string`, and `String::from_utf16_lossy`),
* the assembly store callback `RustClrStore_Impl::ProvideAssembly`
  (src/host_control.rs),
* the host control callbacks `GetHostManager` / `SetAppDomainManager`
  (src/host_control.rs),
* identity extraction `ICLRAssemblyIdentityManager::get_identity_stream`
  (src/data/assembly_identity.rs),
* the exit patch `RustClr::patch_exit`, the lifecycle functions
  `RustClr::prepare`, `RustClr::run`, `RustClr::unload_domain`,
  `Drop for RustClr`, and the output redirection `ClrOutput`
  (src/clr.rs),
* the dynamic-value marshaler (modelled from the spec; its module is not
  present in the source tree, only its callers are).

External native services (the CLR COM interfaces, `NtProtectVirtualMemory`,
`System.Console` / `System.IO.StringWriter`) are modelled by explicit state
and by oracles supplying each native call's status, mirroring the statuses
the code inspects.
-/

set_option autoImplicit false

namespace RustClr

/-! ## UTF-16 wide strings

Identity strings cross the native boundary as null-terminated sequences of
16-bit units (`PCWSTR`).  We model a wide string as the `List Nat` of its
units before the terminator, and a Rust `String` as the `List Nat` of its
Unicode scalar values.  `utf16Encode` models `String::encode_utf16`;
`utf16Decode` models the strict `String::from_utf16` (used by
`PCWSTR::to_string` in `ProvideAssembly`); `utf16DecodeLossy` models
`String::from_utf16_lossy` (used by `get_identity_stream`).
-/

/-- A 16-bit unit in the high-surrogate range D800..DBFF. -/
def isHighSurrogate (u : Nat) : Bool :=
  decide (0xD800 ≤ u ∧ u ≤ 0xDBFF)

/-- A 16-bit unit in the low-surrogate range DC00..DFFF. -/
def isLowSurrogate (u : Nat) : Bool :=
  decide (0xDC00 ≤ u ∧ u ≤ 0xDFFF)

/-- A Unicode scalar value: below 0x110000 and not a surrogate. -/
def isUnicodeScalar (c : Nat) : Bool :=
  decide (c < 0x110000 ∧ (c < 0xD800 ∨ 0xDFFF < c))

/-- Every element of the list is a Unicode scalar value.  Holds for the
scalar sequence of every Rust `String`. -/
def validScalars (s : List Nat) : Bool :=
  s.all isUnicodeScalar

/-- Every element fits in 16 bits.  Holds for every wide string, whose units
are `u16` by type. -/
def validUnits (us : List Nat) : Bool :=
  us.all (fun u => decide (u < 0x10000))

/-- UTF-16 encoding of one scalar value: one unit below 0x10000, otherwise a
surrogate pair. -/
def utf16EncodeChar (c : Nat) : List Nat :=
  if c < 0x10000 then [c]
  else [0xD800 + (c - 0x10000) / 0x400, 0xDC00 + (c - 0x10000) % 0x400]

/-- UTF-16 encoding of a scalar sequence (`String::encode_utf16`). -/
def utf16Encode : List Nat → List Nat
  | [] => []
  | c :: cs => utf16EncodeChar c ++ utf16Encode cs

/-- Scalar value of a surrogate pair. -/
def combineSurrogates (hi lo : Nat) : Nat :=
  0x10000 + (hi - 0xD800) * 0x400 + (lo - 0xDC00)

/-- Strict UTF-16 decoding (`String::from_utf16`): fails on any unpaired
surrogate. -/
def utf16Decode : List Nat → Option (List Nat)
  | [] => some []
  | u :: us =>
    if isHighSurrogate u then
      match us with
      | [] => none
      | v :: vs =>
        if isLowSurrogate v then
          (utf16Decode vs).map (combineSurrogates u v :: ·)
        else none
    else if isLowSurrogate u then none
    else (utf16Decode us).map (u :: ·)

/-- Lossy UTF-16 decoding (`String::from_utf16_lossy`): unpaired surrogates
become U+FFFD and decoding continues. -/
def utf16DecodeLossy : List Nat → List Nat
  | [] => []
  | u :: us =>
    if isHighSurrogate u then
      match us with
      | [] => [0xFFFD]
      | v :: vs =>
        if isLowSurrogate v then
          combineSurrogates u v :: utf16DecodeLossy vs
        else 0xFFFD :: utf16DecodeLossy (v :: vs)
    else if isLowSurrogate u then 0xFFFD :: utf16DecodeLossy us
    else u :: utf16DecodeLossy us

@[simp]
theorem utf16Decode_nil : utf16Decode [] = some [] := rfl

theorem utf16Decode_cons (u : Nat) (us : List Nat) :
    utf16Decode (u :: us) =
      if isHighSurrogate u then
        match us with
        | [] => none
        | v :: vs =>
          if isLowSurrogate v then
            (utf16Decode vs).map (combineSurrogates u v :: ·)
          else none
      else if isLowSurrogate u then none
      else (utf16Decode us).map (u :: ·) := by
  cases us <;> rfl

/-- Strict decoding inverts encoding on sequences of scalar values. -/
theorem utf16Decode_utf16Encode (s : List Nat) (h : validScalars s = true) :
    utf16Decode (utf16Encode s) = some s := by
  induction s with
  | nil => simp [utf16Encode, utf16Decode]
  | cons c cs ih =>
    rw [validScalars, List.all_cons, Bool.and_eq_true] at h
    obtain ⟨hc, hcs⟩ := h
    rw [isUnicodeScalar, decide_eq_true_iff] at hc
    have ihcs := ih hcs
    by_cases hlt : c < 0x10000
    · have h1 : isHighSurrogate c = false := by
        simp only [isHighSurrogate, decide_eq_false_iff_not]
        omega
      have h2 : isLowSurrogate c = false := by
        simp only [isLowSurrogate, decide_eq_false_iff_not]
        omega
      simp [utf16Encode, utf16EncodeChar, hlt, utf16Decode_cons, h1, h2, ihcs]
    · have hub : c - 0x10000 < 0x100000 := by omega
      have hq : (c - 0x10000) / 0x400 < 0x400 := by
        apply Nat.div_lt_of_lt_mul
        omega
      have hr : (c - 0x10000) % 0x400 < 0x400 := Nat.mod_lt _ (by omega)
      have hdm := Nat.div_add_mod (c - 0x10000) 0x400
      have h1 : isHighSurrogate (0xD800 + (c - 0x10000) / 0x400) = true := by
        simp only [isHighSurrogate, decide_eq_true_iff]
        omega
      have h2 : isLowSurrogate (0xDC00 + (c - 0x10000) % 0x400) = true := by
        simp only [isLowSurrogate, decide_eq_true_iff]
        omega
      have hcomb :
          combineSurrogates (0xD800 + (c - 0x10000) / 0x400)
            (0xDC00 + (c - 0x10000) % 0x400) = c := by
        simp only [combineSurrogates, Nat.add_sub_cancel_left]
        omega
      simp [utf16Encode, utf16EncodeChar, hlt, utf16Decode_cons, h1, h2, hcomb,
        ihcs]

theorem utf16Decode_cons_cons (u v : Nat) (vs : List Nat) :
    utf16Decode (u :: v :: vs) =
      if isHighSurrogate u then
        if isLowSurrogate v then
          (utf16Decode vs).map (combineSurrogates u v :: ·)
        else none
      else if isLowSurrogate u then none
      else (utf16Decode (v :: vs)).map (u :: ·) := rfl

/-- Encoding inverts strict decoding on 16-bit unit sequences: a
successfully decoded wide string is the encoding of its decode.  In
particular strict decoding is injective on wide strings. -/
theorem utf16Encode_utf16Decode :
    ∀ (us s : List Nat), validUnits us = true → utf16Decode us = some s →
      utf16Encode s = us
  | [], s, _, h => by
    simp only [utf16Decode_nil, Option.some.injEq] at h
    subst h
    rfl
  | u :: us, s, hu, h => by
    rw [validUnits, List.all_cons, Bool.and_eq_true] at hu
    obtain ⟨hu16, hus16⟩ := hu
    rw [decide_eq_true_iff] at hu16
    cases us with
    | nil =>
      rw [utf16Decode_cons] at h
      by_cases hhi : isHighSurrogate u = true
      · rw [if_pos hhi] at h; simp at h
      · rw [if_neg hhi] at h
        by_cases hlo : isLowSurrogate u = true
        · rw [if_pos hlo] at h; simp at h
        · rw [if_neg hlo] at h
          simp at h
          subst h
          rw [utf16Encode, utf16EncodeChar, if_pos hu16]
          rfl
    | cons v vs =>
      rw [List.all_cons, Bool.and_eq_true] at hus16
      obtain ⟨hv16, hvs16⟩ := hus16
      rw [decide_eq_true_iff] at hv16
      rw [utf16Decode_cons_cons] at h
      by_cases hhi : isHighSurrogate u = true
      · rw [if_pos hhi] at h
        by_cases hlo : isLowSurrogate v = true
        · rw [if_pos hlo] at h
          cases hvs : utf16Decode vs with
          | none => rw [hvs] at h; simp at h
          | some t =>
            rw [hvs] at h
            simp only [Option.map_some', Option.some.injEq] at h
            subst h
            have ih := utf16Encode_utf16Decode vs t hvs16 hvs
            rw [isHighSurrogate, decide_eq_true_iff] at hhi
            rw [isLowSurrogate, decide_eq_true_iff] at hlo
            have hge : ¬ combineSurrogates u v < 0x10000 := by
              simp only [combineSurrogates]
              omega
            have he : combineSurrogates u v - 0x10000 =
                (v - 0xDC00) + (u - 0xD800) * 0x400 := by
              simp only [combineSurrogates]
              omega
            have hdiv :
                (combineSurrogates u v - 0x10000) / 0x400 = u - 0xD800 := by
              rw [he, Nat.add_mul_div_right _ _ (by norm_num : (0:Nat) < 0x400)]
              rw [Nat.div_eq_of_lt (by omega)]
              omega
            have hmod :
                (combineSurrogates u v - 0x10000) % 0x400 = v - 0xDC00 := by
              rw [he, Nat.add_mul_mod_self_right]
              exact Nat.mod_eq_of_lt (by omega)
            rw [utf16Encode, utf16EncodeChar, if_neg hge, hdiv, hmod, ih]
            simp only [List.cons_append, List.nil_append, List.cons.injEq]
            exact ⟨by omega, by omega, by simp⟩
        · rw [if_neg hlo] at h; simp at h
      · rw [if_neg hhi] at h
        by_cases hlo : isLowSurrogate u = true
        · rw [if_pos hlo] at h; simp at h
        · rw [if_neg hlo] at h
          cases hus : utf16Decode (v :: vs) with
          | none => rw [hus] at h; simp at h
          | some t =>
            rw [hus] at h
            simp only [Option.map_some', Option.some.injEq] at h
            subst h
            have hvvs : validUnits (v :: vs) = true := by
              rw [validUnits, List.all_cons, Bool.and_eq_true]
              exact ⟨by rw [decide_eq_true_iff]; exact hv16, hvs16⟩
            have ih := utf16Encode_utf16Decode (v :: vs) t hvvs hus
            rw [utf16Encode, utf16EncodeChar, if_pos hu16, ih]
            rfl

/-! ## Errors

`ClrError` embeds the variants of `src/error.rs` that the functions below
construct.  Variants that in the source carry a `format!`-built display
string are modelled without that payload; the payloads that the claims
inspect (operation name and raw HRESULT of `ApiError`, the static message
of `GenericError`) are kept.
-/

inductive ClrError where
  | ApiError (op : String) (hr : Int)
  | GenericError (msg : String)
  | CastingError (iface : String)
  | MetaHostCreationError
  | RuntimeInfoError
  | RuntimeHostError
  | RuntimeStartError
  | NoDomainAvailable
  | VariantUnsupported
deriving DecidableEq, Repr

/-- A `windows_core::Error` as built by `Error::new` in the COM callback
implementations (src/host_control.rs): an HRESULT (kept as its unsigned
32-bit value) plus a message. -/
structure ComError where
  hresult : Nat
  message : String
deriving DecidableEq, Repr

/-! ## Assembly store (`RustClrStore`, src/host_control.rs)

`RustClrStore` is constructed once with a non-owning reference to the image
bytes and the identity string computed at preparation time; it is never
mutated afterwards.  `ProvideAssembly` reads the bind request's post-policy
identity with `PCWSTR::to_string` (strict UTF-16 decoding; a failure
converts through `?` into a `windows_core::Error` distinct from the decline
status), compares it with the stored identity, and on match fills the out
parameters `*passemblyid = 800`, `*pcontext = 0` and a fresh
`SHCreateMemStream` over the buffer.
-/

structure RustClrStore where
  /-- The assembly bytes (`buffer: &[u8]`). -/
  buffer : List Nat
  /-- The identity to match (`assembly: String`), as Unicode scalar values. -/
  assembly : List Nat
deriving DecidableEq, Repr

/-- `AssemblyBindInfo` (src/data/assembly_store.rs); the two identity
pointers are modelled by the wide strings they point at. -/
structure AssemblyBindInfo where
  dwAppDomainId : Nat
  lpReferencedIdentity : List Nat
  lpPostPolicyIdentity : List Nat
  ePolicyLevel : Nat
deriving DecidableEq, Repr

/-- The out parameters `ProvideAssembly` fills on success: `*passemblyid`,
`*pcontext`, and the contents of the memory stream written to
`*ppstmassemblyimage`. -/
structure ProvidedAssembly where
  assemblyId : Nat
  context : Nat
  streamBytes : List Nat
deriving DecidableEq, Repr

/-- HRESULT of the `FromUtf16Error` → `windows_core::Error` conversion taken
by the `?` on `lpPostPolicyIdentity.to_string()`
(HRESULT_FROM_WIN32(ERROR_NO_UNICODE_TRANSLATION)); only its being distinct
from 0x80070002 is used. -/
def HR_NO_UNICODE_TRANSLATION : Nat := 0x80070459

/-- `RustClrStore_Impl::ProvideAssembly` (src/host_control.rs, lines
127-150). -/
def ProvideAssembly (store : RustClrStore) (pbindinfo : AssemblyBindInfo) :
    Except ComError ProvidedAssembly :=
  match utf16Decode pbindinfo.lpPostPolicyIdentity with
  | none => .error ⟨HR_NO_UNICODE_TRANSLATION, "no unicode translation"⟩
  | some identity =>
    if store.assembly = identity then
      .ok { assemblyId := 800, context := 0, streamBytes := store.buffer }
    else
      .error ⟨0x80070002, "Assembly not recognized"⟩

/-- `RustClrStore_Impl::ProvideModule` (src/host_control.rs): always
declined. -/
def ProvideModule (_store : RustClrStore) : Except ComError Unit :=
  .error ⟨0x80070002, "Module not recognized"⟩

/-- C1, counterexample: the claim promises the decline status 0x80070002
for every bind request whose post-policy identity differs byte-for-byte
from the stored identity, but a request whose post-policy identity is the
single unpaired high surrogate D800 differs from the stored identity "A"
and is rejected by the strict `PCWSTR::to_string` conversion with the
Unicode-translation failure HRESULT instead of 0x80070002. -/
theorem provideAssembly_claim_counterexample :
    ([0xD800] : List Nat) ≠ utf16Encode [65] ∧
    ProvideAssembly ⟨[0x4D, 0x5A], [65]⟩ ⟨1, [], [0xD800], 0⟩ =
      .error ⟨HR_NO_UNICODE_TRANSLATION, "no unicode translation"⟩ ∧
    HR_NO_UNICODE_TRANSLATION ≠ 0x80070002 :=
  ⟨by decide, rfl, by decide⟩

/-- C1 (amended): for a bind request whose post-policy identity is
byte-for-byte the UTF-16 encoding of the stored identity, `ProvideAssembly`
succeeds with a fresh memory stream whose contents are byte-identical to
the stored buffer, the non-zero correlation id 800 and context value 0;
for a request whose post-policy identity is a well-formed wide string that
differs byte-for-byte from that encoding it returns the declined-binding
error "Assembly not recognized" (HRESULT 0x80070002); a request whose
post-policy identity is ill-formed UTF-16 is rejected with the
Unicode-translation error instead.  No input crashes or returns an
undefined value. -/
theorem provideAssembly_correct (store : RustClrStore)
    (pbindinfo : AssemblyBindInfo)
    (hval : validScalars store.assembly = true) :
    (pbindinfo.lpPostPolicyIdentity = utf16Encode store.assembly →
      ProvideAssembly store pbindinfo =
        .ok { assemblyId := 800, context := 0, streamBytes := store.buffer } ∧
      (800 : Nat) ≠ 0)
    ∧ (∀ requested, validUnits pbindinfo.lpPostPolicyIdentity = true →
        utf16Decode pbindinfo.lpPostPolicyIdentity = some requested →
        pbindinfo.lpPostPolicyIdentity ≠ utf16Encode store.assembly →
        ProvideAssembly store pbindinfo =
          .error ⟨0x80070002, "Assembly not recognized"⟩)
    ∧ (utf16Decode pbindinfo.lpPostPolicyIdentity = none →
        ProvideAssembly store pbindinfo =
          .error ⟨HR_NO_UNICODE_TRANSLATION, "no unicode translation"⟩) := by
  refine ⟨?_, ?_, ?_⟩
  · intro heq
    refine ⟨?_, by decide⟩
    rw [ProvideAssembly, heq, utf16Decode_utf16Encode store.assembly hval]
    simp
  · intro requested hunits hdec hne
    have hnr : store.assembly ≠ requested := by
      intro hcontra
      apply hne
      rw [hcontra]
      exact (utf16Encode_utf16Decode _ _ hunits hdec).symm
    rw [ProvideAssembly, hdec]
    simp [hnr]
  · intro hnone
    rw [ProvideAssembly, hnone]

/-- C1, witness: a store holding bytes [1,2,3] under identity "Hi"
(scalars [72,105]) serves a request carrying exactly those identity units
with the stored bytes, id 800 and context 0. -/
theorem provideAssembly_correct_witness :
    ProvideAssembly ⟨[1, 2, 3], [72, 105]⟩ ⟨1, [], [72, 105], 0⟩ =
      .ok { assemblyId := 800, context := 0, streamBytes := [1, 2, 3] } ∧
    (800 : Nat) ≠ 0 :=
  (provideAssembly_correct ⟨[1, 2, 3], [72, 105]⟩ ⟨1, [], [72, 105], 0⟩
    (by decide)).1 (by decide)

/-! ## Host control (`RustClrControl`, src/host_control.rs)

`RustClrControl` holds the `IHostAssemblyManager` built at construction,
which in turn holds the `IHostAssemblyStore`; none of the three objects is
mutated after construction.
-/

/-- `IHostAssemblyManager::IID` (src/data/assembly_manager.rs), as the
`u128` value of the GUID 613dabd7-62b2-493e-9e65-c1e32a1e0c5e. -/
def IID_IHostAssemblyManager : Nat := 0x613dabd762b2493e9e65c1e32a1e0c5e

/-- `RustClrManager` (src/host_control.rs): its only state is the store. -/
structure RustClrManager where
  store : RustClrStore
deriving DecidableEq, Repr

/-- `RustClrControl` (src/host_control.rs): its only state is the manager. -/
structure RustClrControl where
  manager : RustClrManager
deriving DecidableEq, Repr

/-- `RustClrControl_Impl::GetHostManager` (src/host_control.rs, lines
36-56): the requested interface id is compared against
`IHostAssemblyManager::IID`; on match the stored manager is written to
`*ppobject`, otherwise `*ppobject` is nulled and E_NOINTERFACE
(0x80004002) is returned. -/
def GetHostManager (ctrl : RustClrControl) (riid : Nat) :
    Except ComError RustClrManager :=
  if riid = IID_IHostAssemblyManager then .ok ctrl.manager
  else .error ⟨0x80004002, "E_NOINTERFACE"⟩

/-- `RustClrControl_Impl::SetAppDomainManager` (src/host_control.rs, lines
59-65): a successful no-op. -/
def SetAppDomainManager (_ctrl : RustClrControl) (_dwappdomainid : Nat) :
    Except ComError Unit :=
  .ok ()

/-- `RustClrManager_Impl::GetNonHostStoreAssemblies` (src/host_control.rs):
succeeds with a null reference list (everything is served from the store). -/
def GetNonHostStoreAssemblies (_manager : RustClrManager) :
    Except ComError Unit :=
  .ok ()

/-- `RustClrManager_Impl::GetAssemblyStore` (src/host_control.rs): returns
the stored `IHostAssemblyStore`. -/
def GetAssemblyStore (manager : RustClrManager) :
    Except ComError RustClrStore :=
  .ok manager.store

/-- C9: a capability request for the assembly manager interface id succeeds
with the assembly manager; setting an execution-context (app-domain)
manager is answered as a successful no-op; any other requested capability
is declined with the fixed not-supported status E_NOINTERFACE
(0x80004002). -/
theorem hostControl_capabilities (ctrl : RustClrControl)
    (riid dwappdomainid : Nat) :
    (riid = IID_IHostAssemblyManager →
      GetHostManager ctrl riid = .ok ctrl.manager)
    ∧ (riid ≠ IID_IHostAssemblyManager →
      GetHostManager ctrl riid = .error ⟨0x80004002, "E_NOINTERFACE"⟩)
    ∧ SetAppDomainManager ctrl dwappdomainid = .ok () := by
  refine ⟨?_, ?_, rfl⟩
  · intro h
    rw [GetHostManager, if_pos h]
  · intro h
    rw [GetHostManager, if_neg h]

/-- C9, witness: the assembly-manager IID is served, the interface id 5 is
declined with E_NOINTERFACE. -/
theorem hostControl_capabilities_witness :
    GetHostManager ⟨⟨[1], [65]⟩⟩ IID_IHostAssemblyManager = .ok ⟨⟨[1], [65]⟩⟩ ∧
    GetHostManager ⟨⟨[1], [65]⟩⟩ 5 = .error ⟨0x80004002, "E_NOINTERFACE"⟩ :=
  ⟨(hostControl_capabilities ⟨⟨[1], [65]⟩⟩ IID_IHostAssemblyManager 0).1 rfl,
   (hostControl_capabilities ⟨⟨[1], [65]⟩⟩ 5 0).2.1 (by decide)⟩

/-! ## Identity extraction
(`ICLRAssemblyIdentityManager::get_identity_stream`,
src/data/assembly_identity.rs, lines 27-33)

The function allocates `vec![0u16; 2048]`, sets `size = 2048`, makes one
call `GetBindingIdentityFromStream(pstream, dwFlags, buffer, &mut size)`,
and on HRESULT 0 returns
`String::from_utf16_lossy(&buffer[..size as usize - 1])`.  The service is
modelled by an oracle reply carrying the HRESULT, the size it stores back
through `pcchbuffersize`, and the units it writes into the scratch buffer.
-/

/-- One reply of the runtime identity service. -/
structure IdentityServiceReply where
  /-- HRESULT of `GetBindingIdentityFromStream` (an `i32`). -/
  hr : Int
  /-- The value stored back through `pcchbuffersize` (a `u32`). -/
  sizeOut : Nat
  /-- The units the service wrote into the scratch buffer. -/
  written : List Nat
deriving Repr

/-- The 2048-element scratch buffer `vec![0; 2048]` after the service call:
the written units over the zero initialization. -/
def scratchAfter (reply : IdentityServiceReply) : List Nat :=
  (reply.written ++ List.replicate 2048 0).take 2048

def USIZE_SIZE : Nat := 2 ^ 64

/-- `usize` subtraction as compiled in release mode: wraps on underflow
(in debug mode the underflow aborts instead; either way `size = 0` never
reaches the slice with a meaningful index). -/
def wrappingSub (a b : Nat) : Nat :=
  (a + (USIZE_SIZE - b % USIZE_SIZE)) % USIZE_SIZE

/-- Rust slice `&l[..n]`: defined only for `n ≤ l.len()`; otherwise the
slice operation panics. -/
def sliceTo (l : List Nat) (n : Nat) : Option (List Nat) :=
  if n ≤ l.length then some (l.take n) else none

/-- Result of `get_identity_stream`: `none` models the panic of the slice
`&buffer[..size as usize - 1]`. -/
def get_identity_stream_result (reply : IdentityServiceReply) :
    Option (Except ClrError (List Nat)) :=
  if reply.hr = 0 then
    match sliceTo (scratchAfter reply) (wrappingSub reply.sizeOut 1) with
    | some units => some (.ok (utf16DecodeLossy units))
    | none => none
  else some (.error (.ApiError "GetBindingIdentityFromStream" reply.hr))

/-- `get_identity_stream`: the result paired with the buffer sizes passed
to `GetBindingIdentityFromStream`, one entry per call made. -/
def get_identity_stream (reply : IdentityServiceReply) :
    Option (Except ClrError (List Nat)) × List Nat :=
  (get_identity_stream_result reply, [2048])

/-- HRESULT_FROM_WIN32(ERROR_INSUFFICIENT_BUFFER) = 0x8007007A, as the
`i32` the service reports when the scratch buffer is too small. -/
def HR_INSUFFICIENT_BUFFER : Int := 0x8007007A - 0x100000000

theorem scratchAfter_length (reply : IdentityServiceReply) :
    (scratchAfter reply).length = 2048 := by
  rw [scratchAfter, List.length_take, List.length_append, List.length_replicate]
  omega

theorem wrappingSub_one (n : Nat) (h1 : 1 ≤ n) (h64 : n < 2 ^ 64) :
    wrappingSub n 1 = n - 1 := by
  unfold wrappingSub USIZE_SIZE
  omega

theorem wrappingSub_zero_one : wrappingSub 0 1 = 2 ^ 64 - 1 := by
  unfold wrappingSub USIZE_SIZE
  omega

/-- C2, counterexample: the claim promises a retry with a larger buffer
when the identity service reports insufficient scratch-buffer space, but
when the service replies with
HRESULT_FROM_WIN32(ERROR_INSUFFICIENT_BUFFER) the extraction makes exactly
one call, with the fixed 2048-unit buffer, and fails immediately with
`ApiError` — there is no second call and no buffer growth. -/
theorem getIdentityStream_claim_counterexample :
    (get_identity_stream ⟨HR_INSUFFICIENT_BUFFER, 0, []⟩).2 = [2048] ∧
    ((get_identity_stream ⟨HR_INSUFFICIENT_BUFFER, 0, []⟩).2).length = 1 ∧
    (get_identity_stream ⟨HR_INSUFFICIENT_BUFFER, 0, []⟩).1 =
      some (.error
        (.ApiError "GetBindingIdentityFromStream" HR_INSUFFICIENT_BUFFER)) :=
  ⟨rfl, rfl, rfl⟩

/-- C2 (amended): the identity service is called exactly once per
extraction, always with the fixed 2048-unit scratch buffer; there is no
retry and no buffer growth.  Any non-success status — including an
insufficient-buffer report — immediately yields
`ApiError("GetBindingIdentityFromStream", hr)`. -/
theorem getIdentityStream_single_call (reply : IdentityServiceReply) :
    (get_identity_stream reply).2 = [2048] ∧
    (reply.hr ≠ 0 → (get_identity_stream reply).1 =
      some (.error (.ApiError "GetBindingIdentityFromStream" reply.hr))) := by
  constructor
  · rfl
  · intro h
    have h1 : (get_identity_stream reply).1 = get_identity_stream_result reply :=
      rfl
    rw [h1, get_identity_stream_result, if_neg h]

/-- C2, witness: a service reply with status 1 is surfaced as `ApiError`
after the single 2048-unit call. -/
theorem getIdentityStream_single_call_witness :
    (get_identity_stream ⟨1, 0, []⟩).2 = [2048] ∧
    (get_identity_stream ⟨1, 0, []⟩).1 =
      some (.error (.ApiError "GetBindingIdentityFromStream" 1)) :=
  ⟨(getIdentityStream_single_call ⟨1, 0, []⟩).1,
   (getIdentityStream_single_call ⟨1, 0, []⟩).2 (by decide)⟩

/-- C10: on a successful service call (`hr = 0`, `sizeOut` a `u32`), the
extraction returns normally exactly when `1 ≤ sizeOut ≤ 2049`, in which
case it lossily decodes exactly `sizeOut - 1` units of the 2048-unit
scratch buffer (dropping one trailing unit); `sizeOut = 0` underflows the
index computation and `sizeOut > 2049` indexes past the buffer, and both
panic instead of returning an `Err`. -/
theorem getIdentityStream_panic_domain (reply : IdentityServiceReply)
    (h0 : reply.hr = 0) (h32 : reply.sizeOut < 2 ^ 32) :
    ((get_identity_stream reply).1 = none ↔
      (reply.sizeOut = 0 ∨ 2049 < reply.sizeOut))
    ∧ (1 ≤ reply.sizeOut → reply.sizeOut ≤ 2049 →
      (get_identity_stream reply).1 =
        some (.ok (utf16DecodeLossy
          ((scratchAfter reply).take (reply.sizeOut - 1))))) := by
  have h1 : (get_identity_stream reply).1 = get_identity_stream_result reply :=
    rfl
  have hlen := scratchAfter_length reply
  rw [h1, get_identity_stream_result, if_pos h0]
  by_cases hz : reply.sizeOut = 0
  · have hw : wrappingSub reply.sizeOut 1 = 2 ^ 64 - 1 := by
      rw [hz]
      exact wrappingSub_zero_one
    have hs : sliceTo (scratchAfter reply) (wrappingSub reply.sizeOut 1) =
        none := by
      rw [hw, sliceTo, if_neg (by omega)]
    rw [hs]
    constructor
    · simp [hz]
    · intro hge1
      omega
  · have hge1 : 1 ≤ reply.sizeOut := by omega
    have hw : wrappingSub reply.sizeOut 1 = reply.sizeOut - 1 :=
      wrappingSub_one reply.sizeOut hge1 (by omega)
    by_cases hbig : 2049 < reply.sizeOut
    · have hs : sliceTo (scratchAfter reply) (wrappingSub reply.sizeOut 1) =
          none := by
        rw [hw, sliceTo, if_neg (by omega)]
      rw [hs]
      constructor
      · simp [hbig]
      · intro _ hle
        omega
    · have hs : sliceTo (scratchAfter reply) (wrappingSub reply.sizeOut 1) =
          some ((scratchAfter reply).take (reply.sizeOut - 1)) := by
        rw [hw, sliceTo, if_pos (by omega)]
      rw [hs]
      constructor
      · simp
        omega
      · intro _ _
        rfl

/-- C10, witness: a successful reply of size 5 decodes exactly the first 4
units of the scratch buffer. -/
theorem getIdentityStream_panic_domain_witness :
    (get_identity_stream ⟨0, 5, [72, 105, 33, 0, 99]⟩).1 =
      some (.ok (utf16DecodeLossy
        ((scratchAfter ⟨0, 5, [72, 105, 33, 0, 99]⟩).take 4))) :=
  (getIdentityStream_panic_domain ⟨0, 5, [72, 105, 33, 0, 99]⟩ rfl
    (by norm_num)).2 (by norm_num) (by norm_num)

/-! ## Exit neutralization (`RustClr::patch_exit`, src/clr.rs, lines
433-492)

The member-resolution steps (lines 434-458: resolving
`System.Environment.Exit`, `MethodInfo.MethodHandle`,
`RuntimeMethodHandle.GetFunctionPointer` and invoking it) run before any
memory is touched and are collapsed into one oracle outcome; each `?`
returns their error with the page untouched.  The page holding the
resolved address is modelled by its protection and the byte at the
address; the two `NtProtectVirtualMemory` calls are modelled by their
NT_SUCCESS outcomes.  On the success of the first call the page is RWX
and the byte is overwritten with RET (0xC3); the second call restores the
protection returned by the first.
-/

def PAGE_EXECUTE_READWRITE : Nat := 0x40

/-- The page of `Environment.Exit`'s native code: current protection and
the first byte at the resolved address. -/
structure ExitPatchMem where
  protection : Nat
  firstByte : Nat
deriving DecidableEq, Repr

/-- Outcomes of the native calls `patch_exit` makes. -/
structure ExitPatchOracle where
  /-- The member-resolution steps all succeed. -/
  resolved : Bool
  /-- The error returned by the first failing resolution step, when any. -/
  resolveErr : ClrError
  /-- NT_SUCCESS of the first `NtProtectVirtualMemory` call (to RWX). -/
  protectRwx : Bool
  /-- NT_SUCCESS of the second `NtProtectVirtualMemory` call (restore). -/
  restoreProt : Bool
deriving DecidableEq, Repr

/-- `RustClr::patch_exit` (src/clr.rs, lines 433-492). -/
def patch_exit (o : ExitPatchOracle) (mem : ExitPatchMem) :
    Except ClrError Unit × ExitPatchMem :=
  if o.resolved = false then
    (.error o.resolveErr, mem)
  else if o.protectRwx = false then
    (.error (.GenericError "Failed to change memory protection to RWX"), mem)
  else if o.restoreProt = false then
    (.error (.GenericError "Failed to restore memory protection"),
      ⟨PAGE_EXECUTE_READWRITE, 0xC3⟩)
  else
    (.ok (), ⟨mem.protection, 0xC3⟩)

/-- C3, counterexample: the claim says an error return implies no
writable-executable page remains, but when the first protection change
succeeds and the restoring change fails, `patch_exit` returns an explicit
error while the page is left PAGE_EXECUTE_READWRITE (here the original
protection was 0x20, PAGE_EXECUTE_READ). -/
theorem patchExit_claim_counterexample :
    (patch_exit ⟨true, .GenericError "", true, false⟩ ⟨0x20, 0x48⟩).1 =
      .error (.GenericError "Failed to restore memory protection") ∧
    (patch_exit ⟨true, .GenericError "", true, false⟩ ⟨0x20, 0x48⟩).2.protection
      = PAGE_EXECUTE_READWRITE ∧
    PAGE_EXECUTE_READWRITE ≠ 0x20 :=
  ⟨rfl, rfl, by decide⟩

/-- C3 (amended): `patch_exit` never succeeds partially silently — when
resolution or the first protection change fails, an explicit error is
returned and the page is untouched; when both protection changes succeed,
the byte at the resolved address is 0xC3 and the original protection is
restored; but when only the restoring change fails, an explicit
non-retryable error is returned with the byte patched and the page still
left writable-executable. -/
theorem patchExit_protection_cases (o : ExitPatchOracle)
    (mem : ExitPatchMem) :
    (o.resolved = false → patch_exit o mem = (.error o.resolveErr, mem))
    ∧ (o.resolved = true → o.protectRwx = false →
      patch_exit o mem =
        (.error (.GenericError "Failed to change memory protection to RWX"),
          mem))
    ∧ (o.resolved = true → o.protectRwx = true → o.restoreProt = true →
      patch_exit o mem = (.ok (), ⟨mem.protection, 0xC3⟩))
    ∧ (o.resolved = true → o.protectRwx = true → o.restoreProt = false →
      patch_exit o mem =
        (.error (.GenericError "Failed to restore memory protection"),
          ⟨PAGE_EXECUTE_READWRITE, 0xC3⟩)) := by
  refine ⟨?_, ?_, ?_, ?_⟩ <;> intros <;> simp [patch_exit, *]

/-- C3, witness: with every native call succeeding, the byte at the
resolved address becomes 0xC3 and the original protection 0x20 is
restored. -/
theorem patchExit_protection_cases_witness :
    patch_exit ⟨true, .GenericError "", true, true⟩ ⟨0x20, 0x48⟩ =
      (.ok (), ⟨0x20, 0xC3⟩) :=
  (patchExit_protection_cases ⟨true, .GenericError "", true, true⟩
    ⟨0x20, 0x48⟩).2.2.1 rfl rfl rfl

/-! ## Output redirection (`ClrOutput`, src/clr.rs, lines 689-756)

`redirect` creates a fresh `System.IO.StringWriter` instance
(`create_instance`), installs it through `Console.SetOut` and
`Console.SetError`, and saves it in `string_writer`.  `capture` invokes
`ToString` on the saved instance and clears the local VARIANT copy; it
does not touch the console sinks.  `restore` invokes
`Console.InitializeStdOutError(true)`, reinstalling the default sinks.
The external `System.Console` / `StringWriter` state is modelled with the
documented semantics of those members: `writers` lists the contents of
every StringWriter created so far (the index is the instance reference),
`sink` is the currently installed output/error destination, and a
hosted-program write appends to the current sink.
-/

/-- Console and StringWriter state of the hosted runtime. -/
structure ConsoleState where
  writers : List String
  /-- `none` = default stdout/stderr, `some i` = StringWriter `i`. -/
  sink : Option Nat
deriving DecidableEq, Repr

/-- `ClrOutput`: the saved `string_writer` VARIANT, as the reference of the
StringWriter instance it holds. -/
structure ClrOutput where
  string_writer : Option Nat
deriving DecidableEq, Repr

/-- `ClrOutput::new` (src/clr.rs): no StringWriter saved yet. -/
def ClrOutput.new : ClrOutput := ⟨none⟩

/-- `ClrOutput::redirect` (src/clr.rs, lines 689-711). -/
def redirect (_out : ClrOutput) (st : ConsoleState) :
    ClrOutput × ConsoleState :=
  (⟨some st.writers.length⟩,
   ⟨st.writers ++ [""], some st.writers.length⟩)

/-- A hosted-program write to standard output/error, appended to the
currently installed sink. -/
def consoleWrite (text : String) (st : ConsoleState) : ConsoleState :=
  match st.sink with
  | none => st
  | some i => ⟨st.writers.set i (st.writers.getD i "" ++ text), st.sink⟩

/-- `ClrOutput::capture` (src/clr.rs, lines 736-756): reads the saved
writer's accumulated text; the console state is returned unchanged. -/
def capture (out : ClrOutput) (st : ConsoleState) :
    Except ClrError String × ConsoleState :=
  match out.string_writer with
  | none => (.error (.GenericError "No StringWriter instance found"), st)
  | some i => (.ok (st.writers.getD i ""), st)

/-- `ClrOutput::restore` (src/clr.rs, lines 719-728). -/
def restore (st : ConsoleState) : ConsoleState :=
  ⟨st.writers, none⟩

theorem getD_append_singleton (l : List String) (a d : String) :
    (l ++ [a]).getD l.length d = a := by
  induction l with
  | nil => rfl
  | cons x xs ih =>
    simp only [List.cons_append, List.length_cons, List.getD_cons_succ]
    exact ih

theorem set_append_singleton (l : List String) (a b : String) :
    (l ++ [a]).set l.length b = l ++ [b] := by
  induction l with
  | nil => rfl
  | cons x xs ih =>
    simp only [List.cons_append, List.length_cons, List.set_cons_succ]
    rw [ih]

theorem getD_append_of_lt (l t : List String) (n : Nat) (d : String)
    (h : n < l.length) : (l ++ t).getD n d = l.getD n d := by
  induction l generalizing n with
  | nil => simp at h
  | cons x xs ih =>
    cases n with
    | zero => rfl
    | succ m =>
      simp only [List.cons_append, List.getD_cons_succ]
      exact ih m (by simpa using h)

/-- Writing into a freshly redirected window appends to the fresh (empty)
writer and leaves earlier writers untouched. -/
theorem consoleWrite_fresh (ws : List String) (w : String) :
    consoleWrite w ⟨ws ++ [""], some ws.length⟩ =
      ⟨ws ++ [w], some ws.length⟩ := by
  simp only [consoleWrite]
  rw [getD_append_singleton, set_append_singleton, String.empty_append]

/-- C8: capture windows are exact and independent.  After `redirect`, a
write of `w1` followed by `capture` yields exactly `w1` with the console
state (in particular the installed sink) unchanged; after a second
`redirect` and a write of `w2`, `capture` yields exactly `w2` — not
`w1 ++ w2` — while capturing the first window still yields `w1`; `restore`
is the distinct operation that reinstalls the default sinks. -/
theorem clrOutput_capture_windows (st : ConsoleState) (out : ClrOutput)
    (w1 w2 : String) :
    capture (redirect out st).1 (consoleWrite w1 (redirect out st).2) =
      (.ok w1, consoleWrite w1 (redirect out st).2)
    ∧ capture
        (redirect (redirect out st).1
          (consoleWrite w1 (redirect out st).2)).1
        (consoleWrite w2
          (redirect (redirect out st).1
            (consoleWrite w1 (redirect out st).2)).2) =
      (.ok w2,
        consoleWrite w2
          (redirect (redirect out st).1
            (consoleWrite w1 (redirect out st).2)).2)
    ∧ capture (redirect out st).1
        (consoleWrite w2
          (redirect (redirect out st).1
            (consoleWrite w1 (redirect out st).2)).2) =
      (.ok w1,
        consoleWrite w2
          (redirect (redirect out st).1
            (consoleWrite w1 (redirect out st).2)).2)
    ∧ (consoleWrite w1 (redirect out st).2).sink = some st.writers.length
    ∧ (restore (consoleWrite w1 (redirect out st).2)).sink = none := by
  have hr1 : (redirect out st).2 =
      ⟨st.writers ++ [""], some st.writers.length⟩ := rfl
  have hs1 : consoleWrite w1 (redirect out st).2 =
      ⟨st.writers ++ [w1], some st.writers.length⟩ := by
    rw [hr1, consoleWrite_fresh]
  have hr2 : (redirect (redirect out st).1
      (consoleWrite w1 (redirect out st).2)).2 =
      ⟨(st.writers ++ [w1]) ++ [""], some (st.writers ++ [w1]).length⟩ := by
    rw [hs1]
    rfl
  have hs2 : consoleWrite w2
      (redirect (redirect out st).1 (consoleWrite w1 (redirect out st).2)).2 =
      ⟨(st.writers ++ [w1]) ++ [w2], some (st.writers ++ [w1]).length⟩ := by
    rw [hr2, consoleWrite_fresh]
  have ho1 : (redirect out st).1 = ⟨some st.writers.length⟩ := rfl
  have ho2 : (redirect (redirect out st).1
      (consoleWrite w1 (redirect out st).2)).1 =
      ⟨some (st.writers ++ [w1]).length⟩ := by
    rw [hs1]
    rfl
  refine ⟨?_, ?_, ?_, ?_, ?_⟩
  · rw [hs1, ho1]
    simp only [capture]
    rw [getD_append_singleton]
  · rw [hs2, ho2]
    simp only [capture]
    rw [getD_append_singleton]
  · rw [hs2, ho1]
    simp only [capture]
    rw [getD_append_of_lt _ _ _ _ (by simp), getD_append_singleton]
  · rw [hs1]
  · rw [hs1]
    rfl

/-! ## Dynamic value marshaler

Modelled from the spec: the marshaler module implementing the `Variant`
trait (`to_variant` / `from_variant`) and the safe-array builders is not
present under src/ — only its callers are (src/clr.rs calls
`instance.to_variant()`, `true.to_variant()`, `create_safe_args` and
`create_safe_array_args`).  Per §4.3 of the spec the supported native
types are booleans, signed and unsigned integers of the standard widths,
UTF-16 text, and opaque object references, represented dynamically as a
VARIANT-shaped tagged union; unsupported discriminants are rejected with
`VariantUnsupported` rather than reinterpreted.
-/

/-- Modelled from the spec: a native-side value of one of the supported
types (§4.3). -/
inductive NativeValue where
  | vbool (b : Bool)
  | i1 (v : Int)
  | i2 (v : Int)
  | i4 (v : Int)
  | i8 (v : Int)
  | u1 (v : Nat)
  | u2 (v : Nat)
  | u4 (v : Nat)
  | u8 (v : Nat)
  | text (s : String)
  | obj (reference : Nat)
deriving DecidableEq, Repr

/-- Modelled from the spec: the runtime's dynamically-typed value — a
tagged union whose discriminant identifies the payload type.  `VT_other`
stands for every discriminant outside the supported set. -/
inductive DynamicValue where
  | VT_BOOL (b : Bool)
  | VT_I1 (v : Int)
  | VT_I2 (v : Int)
  | VT_I4 (v : Int)
  | VT_I8 (v : Int)
  | VT_UI1 (v : Nat)
  | VT_UI2 (v : Nat)
  | VT_UI4 (v : Nat)
  | VT_UI8 (v : Nat)
  | VT_BSTR (s : String)
  | VT_UNKNOWN (reference : Nat)
  | VT_other (vt : Nat)
deriving DecidableEq, Repr

/-- Modelled from the spec: `to_dynamic` tags each supported native value
with its discriminant. -/
def to_dynamic : NativeValue → DynamicValue
  | .vbool b => .VT_BOOL b
  | .i1 v => .VT_I1 v
  | .i2 v => .VT_I2 v
  | .i4 v => .VT_I4 v
  | .i8 v => .VT_I8 v
  | .u1 v => .VT_UI1 v
  | .u2 v => .VT_UI2 v
  | .u4 v => .VT_UI4 v
  | .u8 v => .VT_UI8 v
  | .text s => .VT_BSTR s
  | .obj r => .VT_UNKNOWN r

/-- Modelled from the spec: `from_dynamic` converts a dynamic value back
by discriminant, failing fast with `VariantUnsupported` on any
unsupported discriminant. -/
def from_dynamic : DynamicValue → Except ClrError NativeValue
  | .VT_BOOL b => .ok (.vbool b)
  | .VT_I1 v => .ok (.i1 v)
  | .VT_I2 v => .ok (.i2 v)
  | .VT_I4 v => .ok (.i4 v)
  | .VT_I8 v => .ok (.i8 v)
  | .VT_UI1 v => .ok (.u1 v)
  | .VT_UI2 v => .ok (.u2 v)
  | .VT_UI4 v => .ok (.u4 v)
  | .VT_UI8 v => .ok (.u8 v)
  | .VT_BSTR s => .ok (.text s)
  | .VT_UNKNOWN r => .ok (.obj r)
  | .VT_other _ => .error .VariantUnsupported

/-- C7: the marshaling round-trip `from_dynamic (to_dynamic v) = v` holds
for every supported native value — in particular for boolean `true`,
integer 42 and string "Hello" — and every unsupported discriminant fails
fast with `VariantUnsupported`. -/
theorem marshal_roundtrip (v : NativeValue) (vt : Nat) :
    from_dynamic (to_dynamic v) = .ok v
    ∧ from_dynamic (to_dynamic (.vbool true)) = .ok (.vbool true)
    ∧ from_dynamic (to_dynamic (.i4 42)) = .ok (.i4 42)
    ∧ from_dynamic (to_dynamic (.text "Hello")) = .ok (.text "Hello")
    ∧ from_dynamic (.VT_other vt) = .error .VariantUnsupported := by
  refine ⟨?_, rfl, rfl, rfl, rfl⟩
  cases v <;> rfl

/-! ## Lifecycle: `prepare`, `run`, `unload_domain`, `Drop`
(src/clr.rs, lines 299-341, 373-421, 626-640, 644-651)

Each native call the code makes is recorded as a `NativeCall` event, and
its outcome is supplied by an oracle.  `ICorRuntimeHost` has no binding
under src/ (only its callers are present), so per the spec's propagation
policy its fallible calls are modelled as status-returning native calls
whose failures the callers wrap and propagate (`CreateDomain`'s error
value is oracle-supplied; `UnloadDomain`'s failure is wrapped with the
operation name and raw status; `Stop`'s status is ignored by the caller).
-/

/-- The native calls the lifecycle functions make, in source order. -/
inductive NativeCall where
  | createMetaHost
  | getRuntime
  | getIdentityManager
  | getIdentity
  | getClrRuntimeHost
  | setHostControl
  | startRuntime
  | getCorRuntimeHost
  | createDomain
  | loadAssembly
  | getMscorlib
  | patchExitCall
  | redirectOutput
  | invokeEntryPoint
  | captureOutput
  | restoreOutput
  | unloadDomainCall
  | stopRuntime
deriving DecidableEq, Repr

/-- The fields of `RustClr` that `prepare` assigns and that teardown
reads: `identity_assembly`, and whether `app_domain` and
`cor_runtime_host` hold `Some` value. -/
structure ClrState where
  identity_assembly : List Nat
  app_domain : Bool
  cor_runtime_host : Bool
deriving DecidableEq, Repr

/-- Outcomes of the native calls `prepare` makes. -/
structure PrepareOracle where
  /-- `CLRCreateInstance::<ICLRMetaHost>` succeeds. -/
  metaHostOk : Bool
  /-- `ICLRMetaHost::GetRuntime` succeeds. -/
  runtimeInfoOk : Bool
  /-- `GetProcAddress`, `GetCLRIdentityManager` and the
  `ICLRAssemblyIdentityManager::from_raw` cast all succeed. -/
  identityManagerOk : Bool
  /-- The error of the first failing identity-manager step, when any. -/
  identityManagerErr : ClrError
  /-- Outcome of `get_identity_stream` on the service's reply (see
  `get_identity_stream_result`, which characterises it as a function of
  the reply): `none` is its panic, otherwise the error or the identity. -/
  identityOutcome : Option (Except ClrError (List Nat))
  /-- `GetInterface::<ICLRuntimeHost>` succeeds. -/
  clrHostOk : Bool
  /-- HRESULT of `ICLRuntimeHost::SetHostControl`. -/
  setHostControlHr : Int
  /-- `ICLRRuntimeInfo::IsLoadable()` returns `Ok`. -/
  isLoadableOk : Bool
  /-- `ICLRRuntimeInfo` reports the runtime already started. -/
  alreadyStarted : Bool
  /-- HRESULT of `ICLRuntimeHost::Start`. -/
  startHr : Int
  /-- First `GetInterface::<ICorRuntimeHost>` succeeds. -/
  corHostOk1 : Bool
  /-- `ICorRuntimeHost::CreateDomain` succeeds. -/
  createDomainOk : Bool
  /-- The error `init_app_domain` propagates when `CreateDomain` fails. -/
  createDomainErr : ClrError
  /-- Second `GetInterface::<ICorRuntimeHost>` (src/clr.rs line 339)
  succeeds. -/
  corHostOk2 : Bool
deriving Repr

/-- The tail of `prepare` from the conditional `start_runtime` on
(src/clr.rs lines 327-340): `identity` is the already-extracted identity
and `tr` the events so far. -/
def prepareTail (o : PrepareOracle) (identity : List Nat)
    (tr : List NativeCall) :
    Option (Except ClrError Unit) × ClrState × List NativeCall :=
  if o.corHostOk1 = false then
    (some (.error .RuntimeHostError), ⟨identity, false, false⟩,
      tr ++ [.getCorRuntimeHost])
  else if o.createDomainOk = false then
    (some (.error o.createDomainErr), ⟨identity, false, false⟩,
      tr ++ [.getCorRuntimeHost, .createDomain])
  else if o.corHostOk2 = false then
    (some (.error .RuntimeHostError), ⟨identity, true, false⟩,
      tr ++ [.getCorRuntimeHost, .createDomain, .getCorRuntimeHost])
  else
    (some (.ok ()), ⟨identity, true, true⟩,
      tr ++ [.getCorRuntimeHost, .createDomain, .getCorRuntimeHost])

/-- `RustClr::prepare` (src/clr.rs, lines 299-341). -/
def prepare (o : PrepareOracle) :
    Option (Except ClrError Unit) × ClrState × List NativeCall :=
  if o.metaHostOk = false then
    (some (.error .MetaHostCreationError), ⟨[], false, false⟩,
      [.createMetaHost])
  else if o.runtimeInfoOk = false then
    (some (.error .RuntimeInfoError), ⟨[], false, false⟩,
      [.createMetaHost, .getRuntime])
  else if o.identityManagerOk = false then
    (some (.error o.identityManagerErr), ⟨[], false, false⟩,
      [.createMetaHost, .getRuntime, .getIdentityManager])
  else
    match o.identityOutcome with
    | none =>
      (none, ⟨[], false, false⟩,
        [.createMetaHost, .getRuntime, .getIdentityManager, .getIdentity])
    | some (.error e) =>
      (some (.error e), ⟨[], false, false⟩,
        [.createMetaHost, .getRuntime, .getIdentityManager, .getIdentity])
    | some (.ok identity) =>
      if o.clrHostOk = false then
        (some (.error .RuntimeHostError), ⟨identity, false, false⟩,
          [.createMetaHost, .getRuntime, .getIdentityManager, .getIdentity,
            .getClrRuntimeHost])
      else if o.setHostControlHr ≠ 0 then
        (some (.error (.ApiError "SetHostControl" o.setHostControlHr)),
          ⟨identity, false, false⟩,
          [.createMetaHost, .getRuntime, .getIdentityManager, .getIdentity,
            .getClrRuntimeHost, .setHostControl])
      else if o.isLoadableOk && !o.alreadyStarted then
        if o.startHr ≠ 0 then
          (some (.error .RuntimeStartError), ⟨identity, false, false⟩,
            [.createMetaHost, .getRuntime, .getIdentityManager, .getIdentity,
              .getClrRuntimeHost, .setHostControl, .startRuntime])
        else
          prepareTail o identity
            [.createMetaHost, .getRuntime, .getIdentityManager, .getIdentity,
              .getClrRuntimeHost, .setHostControl, .startRuntime]
      else
        prepareTail o identity
          [.createMetaHost, .getRuntime, .getIdentityManager, .getIdentity,
            .getClrRuntimeHost, .setHostControl]

/-- `RustClr::unload_domain` (src/clr.rs, lines 626-640): it takes `&self`
and never clears `app_domain` or `cor_runtime_host`, so it cannot change
the state; the native `UnloadDomain` call is made whenever both are
present, and a non-zero status is wrapped and propagated. -/
def unload_domain (st : ClrState) (unloadHr : Int) :
    Except ClrError Unit × List NativeCall :=
  if st.cor_runtime_host && st.app_domain then
    if unloadHr = 0 then (.ok (), [.unloadDomainCall])
    else (.error (.ApiError "UnloadDomain" unloadHr), [.unloadDomainCall])
  else (.ok (), [])

/-- `Drop for RustClr` (src/clr.rs, lines 644-651): stops the runtime when
`cor_runtime_host` is present; the status of `Stop` is ignored. -/
def rcDrop (st : ClrState) : List NativeCall :=
  if st.cor_runtime_host then [.stopRuntime] else []

/-- The builder flags of the `RustClr` being run. -/
structure RunConfig where
  redirect_output : Bool
  patch_exit : Bool
  has_args : Bool
deriving DecidableEq, Repr

/-- Outcomes of the native calls `run` makes after `prepare`. -/
structure RunOracle where
  prep : PrepareOracle
  /-- `domain.load_name(&identity)` succeeds. -/
  loadOk : Bool
  loadErr : ClrError
  /-- `create_safe_array_args` succeeds (consulted only when arguments are
  present; no native CLR call is involved). -/
  argsOk : Bool
  argsErr : ClrError
  /-- `domain.get_assembly("mscorlib")` succeeds. -/
  mscorlibOk : Bool
  mscorlibErr : ClrError
  /-- `patch_exit` succeeds (consulted only when the patch is enabled). -/
  patchOk : Bool
  patchErr : ClrError
  /-- `ClrOutput::redirect` succeeds. -/
  redirectOk : Bool
  redirectErr : ClrError
  /-- `assembly.run(parameters)` succeeds. -/
  invokeOk : Bool
  invokeErr : ClrError
  /-- `ClrOutput::capture` succeeds, yielding `capturedText`. -/
  captureOk : Bool
  captureErr : ClrError
  capturedText : String
  /-- `ClrOutput::restore` succeeds. -/
  restoreOk : Bool
  restoreErr : ClrError
  /-- HRESULT of `ICorRuntimeHost::UnloadDomain`. -/
  unloadHr : Int
deriving Repr

/-- The `patch_exit` call event, present when the patch is enabled. -/
def patchEvents (cfg : RunConfig) : List NativeCall :=
  if cfg.patch_exit then [.patchExitCall] else []

/-- The body of `RustClr::run` between the successful `prepare` and the
final `unload_domain` (src/clr.rs, lines 378-416). -/
def runBody (cfg : RunConfig) (o : RunOracle) :
    Except ClrError String × List NativeCall :=
  if o.loadOk = false then
    (.error o.loadErr, [.loadAssembly])
  else if cfg.has_args && !o.argsOk then
    (.error o.argsErr, [.loadAssembly])
  else if o.mscorlibOk = false then
    (.error o.mscorlibErr, [.loadAssembly, .getMscorlib])
  else if cfg.patch_exit && !o.patchOk then
    (.error o.patchErr, [.loadAssembly, .getMscorlib, .patchExitCall])
  else
    let tr1 := [.loadAssembly, .getMscorlib] ++ patchEvents cfg
    if cfg.redirect_output then
      if o.redirectOk = false then
        (.error o.redirectErr, tr1 ++ [.redirectOutput])
      else if o.invokeOk = false then
        (.error o.invokeErr, tr1 ++ [.redirectOutput, .invokeEntryPoint])
      else if o.captureOk = false then
        (.error o.captureErr,
          tr1 ++ [.redirectOutput, .invokeEntryPoint, .captureOutput])
      else if o.restoreOk = false then
        (.error o.restoreErr,
          tr1 ++ [.redirectOutput, .invokeEntryPoint, .captureOutput,
            .restoreOutput])
      else
        (.ok o.capturedText,
          tr1 ++ [.redirectOutput, .invokeEntryPoint, .captureOutput,
            .restoreOutput])
    else
      if o.invokeOk = false then
        (.error o.invokeErr, tr1 ++ [.invokeEntryPoint])
      else
        (.ok "", tr1 ++ [.invokeEntryPoint])

/-- `RustClr::run` (src/clr.rs, lines 373-421). -/
def run (cfg : RunConfig) (o : RunOracle) :
    Option (Except ClrError String) × ClrState × List NativeCall :=
  match prepare o.prep with
  | (none, st, tr) => (none, st, tr)
  | (some (.error e), st, tr) => (some (.error e), st, tr)
  | (some (.ok _), st, tr) =>
    match runBody cfg o with
    | (.error e, btr) => (some (.error e), st, tr ++ btr)
    | (.ok output, btr) =>
      match unload_domain st o.unloadHr with
      | (.ok _, utr) => (some (.ok output), st, tr ++ btr ++ utr)
      | (.error e, utr) => (some (.error e), st, tr ++ btr ++ utr)

/-- The native calls of a full `run` followed by the `Drop` of the
`RustClr` value.  When `run` panics the value is not dropped (the crate is
`no_std`; the panic aborts), so no further call is made. -/
def lifecycle (cfg : RunConfig) (o : RunOracle) : List NativeCall :=
  match run cfg o with
  | (none, _, tr) => tr
  | (some _, st, tr) => tr ++ rcDrop st

/-- No `startRuntime` call occurs before the first `setHostControl` call
(if `setHostControl` never occurs, no `startRuntime` occurs at all). -/
def noStartBeforeRegister (tr : List NativeCall) : Bool :=
  (tr.takeWhile (fun c => decide (c ≠ .setHostControl))).all
    (fun c => decide (c ≠ .startRuntime))

/-- No `stopRuntime` and no `unloadDomainCall` event occurs in the trace. -/
def noTeardownCalls (tr : List NativeCall) : Bool :=
  tr.all (fun c =>
    decide (c ≠ NativeCall.stopRuntime) &&
    decide (c ≠ NativeCall.unloadDomainCall))

theorem noTeardownCalls_spec (tr : List NativeCall)
    (h : noTeardownCalls tr = true) :
    NativeCall.stopRuntime ∉ tr ∧ NativeCall.unloadDomainCall ∉ tr := by
  rw [noTeardownCalls, List.all_eq_true] at h
  constructor <;> intro hm <;> simpa using h _ hm

theorem prepare_trace_props (o : PrepareOracle) :
    (noStartBeforeRegister (prepare o).2.2 &&
      noTeardownCalls (prepare o).2.2) = true := by
  obtain ⟨mh, ri, im, ime, io, ch, shc, il, als, shr, c1, cd, cde, c2⟩ := o
  cases mh with
  | false => rfl
  | true =>
  cases ri with
  | false => rfl
  | true =>
  cases im with
  | false => rfl
  | true =>
  rcases io with _ | e | id
  · rfl
  · rfl
  · cases ch with
    | false => rfl
    | true =>
      cases il <;> cases als <;> cases c1 <;> cases cd <;> cases c2 <;>
        by_cases hshc : shc ≠ 0 <;> by_cases hshr : shr ≠ 0 <;>
        simp [prepare, prepareTail, noStartBeforeRegister, noTeardownCalls,
          hshc, hshr]

theorem noStartBeforeRegister_append (l l2 : List NativeCall)
    (h : noStartBeforeRegister l = true)
    (h2 : NativeCall.startRuntime ∉ l2) :
    noStartBeforeRegister (l ++ l2) = true := by
  induction l with
  | nil =>
    rw [List.nil_append]
    rw [noStartBeforeRegister, List.all_eq_true]
    intro c hc
    have hcl2 : c ∈ l2 := (List.takeWhile_sublist _).subset hc
    simp only [decide_eq_true_iff]
    intro hce
    exact h2 (hce ▸ hcl2)
  | cons x xs ih =>
    rw [noStartBeforeRegister, List.takeWhile_cons] at h
    rw [noStartBeforeRegister, List.cons_append, List.takeWhile_cons]
    by_cases hx : (decide (x ≠ NativeCall.setHostControl)) = true
    · rw [hx] at h ⊢
      simp only [if_true, List.all_cons, Bool.and_eq_true] at h ⊢
      exact ⟨h.1, ih h.2⟩
    · rw [Bool.not_eq_true] at hx
      rw [hx]
      simp

theorem runBody_trace_no_teardown (cfg : RunConfig) (o : RunOracle) :
    NativeCall.stopRuntime ∉ (runBody cfg o).2 ∧
    NativeCall.unloadDomainCall ∉ (runBody cfg o).2 := by
  refine ⟨?_, ?_⟩ <;>
    (unfold runBody patchEvents
     repeat' split) <;>
    simp

theorem runBody_trace_no_start (cfg : RunConfig) (o : RunOracle) :
    NativeCall.startRuntime ∉ (runBody cfg o).2 := by
  unfold runBody patchEvents
  repeat' split
  all_goals simp

theorem unload_domain_trace (st : ClrState) (hr : Int) :
    (unload_domain st hr).2 = [] ∨
    (unload_domain st hr).2 = [.unloadDomainCall] := by
  unfold unload_domain
  repeat' split
  all_goals simp

/-- Every `unloadDomainCall` event precedes every `stopRuntime` event:
after the first `stopRuntime` no `unloadDomainCall` occurs. -/
def teardownOrdered (tr : List NativeCall) : Bool :=
  (tr.dropWhile (fun c => decide (c ≠ .stopRuntime))).all
    (fun c => decide (c ≠ .unloadDomainCall))

theorem teardownOrdered_append (l l2 : List NativeCall)
    (h : NativeCall.stopRuntime ∉ l)
    (h2 : l2 = [] ∨ l2 = [.stopRuntime]) :
    teardownOrdered (l ++ l2) = true := by
  induction l with
  | nil =>
    rcases h2 with h2 | h2 <;> subst h2 <;> decide
  | cons x xs ih =>
    rw [List.mem_cons] at h
    push_neg at h
    obtain ⟨hx, hxs⟩ := h
    rw [teardownOrdered, List.cons_append, List.dropWhile_cons]
    have hpred : decide (x ≠ NativeCall.stopRuntime) = true := by
      simp
      exact fun hc => hx hc.symm
    rw [hpred]
    simp only [if_true]
    exact ih hxs

theorem rcDrop_cases (st : ClrState) :
    rcDrop st = [] ∨ rcDrop st = [.stopRuntime] := by
  unfold rcDrop
  split
  · exact Or.inr rfl
  · exact Or.inl rfl

/-- C4 (amended): in the combined trace of `run` followed by `Drop`, every
domain unload precedes every runtime stop; a pending primary error is
always the one returned (a teardown failure never replaces it), because
the only fallible teardown step — the domain unload — is reached only on
executions whose primary phase succeeded, while `Drop` ignores `Stop`'s
status.  However, on error paths the domain is not unloaded at all: the
teardown that actually runs there is only the runtime stop. -/
theorem run_teardown (cfg : RunConfig) (o : RunOracle) :
    teardownOrdered (lifecycle cfg o) = true
    ∧ (∀ e, (prepare o.prep).1 = some (.ok ()) →
        (runBody cfg o).1 = .error e →
        (run cfg o).1 = some (.error e))
    ∧ (NativeCall.unloadDomainCall ∈ (run cfg o).2.2 →
        ∃ out, (runBody cfg o).1 = .ok out) := by
  obtain ⟨hpstop, hpunload⟩ := noTeardownCalls_spec _
    (Bool.and_eq_true_iff.mp (prepare_trace_props o.prep)).2
  obtain ⟨hbstop, hbunload⟩ := runBody_trace_no_teardown cfg o
  rcases hpr : prepare o.prep with ⟨res, st, tr⟩
  rw [hpr] at hpstop hpunload
  simp only at hpstop hpunload
  rcases res with _ | res
  · refine ⟨?_, ?_, ?_⟩
    · have hl : lifecycle cfg o = tr := by
        simp only [lifecycle, run, hpr]
      rw [hl, ← List.append_nil tr]
      exact teardownOrdered_append tr [] hpstop (Or.inl rfl)
    · intro e hpok _
      simp at hpok
    · intro hmem
      simp only [run, hpr] at hmem
      exact absurd hmem hpunload
  · rcases res with e | u
    · refine ⟨?_, ?_, ?_⟩
      · have hl : lifecycle cfg o = tr ++ rcDrop st := by
          simp only [lifecycle, run, hpr]
        rw [hl]
        exact teardownOrdered_append tr (rcDrop st) hpstop (rcDrop_cases st)
      · intro e2 hpok _
        simp at hpok
      · intro hmem
        simp only [run, hpr] at hmem
        exact absurd hmem hpunload
    · rcases hb : runBody cfg o with ⟨bres, btr⟩
      rw [hb] at hbstop hbunload
      simp only at hbstop hbunload
      rcases bres with be | bout
      · refine ⟨?_, ?_, ?_⟩
        · have hl : lifecycle cfg o = (tr ++ btr) ++ rcDrop st := by
            simp only [lifecycle, run, hpr, hb]
          rw [hl]
          refine teardownOrdered_append _ _ ?_ (rcDrop_cases st)
          intro hmem
          rcases List.mem_append.mp hmem with hmem | hmem
          · exact hpstop hmem
          · exact hbstop hmem
        · intro e2 _ hbe
          simp only at hbe
          rw [hbe] at hb
          simp [run, hpr, hb]
        · intro hmem
          simp only [run, hpr, hb] at hmem
          rcases List.mem_append.mp hmem with hmem | hmem
          · exact absurd hmem hpunload
          · exact absurd hmem hbunload
      · have hutr := unload_domain_trace st o.unloadHr
        rcases hu : unload_domain st o.unloadHr with ⟨ures, utr⟩
        rw [hu] at hutr
        simp only at hutr
        have hustop : NativeCall.stopRuntime ∉ utr := by
          rcases hutr with h | h <;> subst h <;> decide
        have hnostop : NativeCall.stopRuntime ∉ (tr ++ btr) ++ utr := by
          intro hmem
          rcases List.mem_append.mp hmem with hmem | hmem
          · rcases List.mem_append.mp hmem with hmem | hmem
            · exact hpstop hmem
            · exact hbstop hmem
          · exact hustop hmem
        rcases ures with ue | _
        · refine ⟨?_, ?_, ?_⟩
          · have hl : lifecycle cfg o = ((tr ++ btr) ++ utr) ++ rcDrop st := by
              simp [lifecycle, run, hpr, hb, hu, List.append_assoc]
            rw [hl]
            exact teardownOrdered_append _ _ hnostop (rcDrop_cases st)
          · intro e2 _ hbe
            simp at hbe
          · intro _
            exact ⟨bout, rfl⟩
        · refine ⟨?_, ?_, ?_⟩
          · have hl : lifecycle cfg o = ((tr ++ btr) ++ utr) ++ rcDrop st := by
              simp [lifecycle, run, hpr, hb, hu, List.append_assoc]
            rw [hl]
            exact teardownOrdered_append _ _ hnostop (rcDrop_cases st)
          · intro e2 _ hbe
            simp at hbe
          · intro _
            exact ⟨bout, rfl⟩

/-- A fully successful `prepare` oracle. -/
def prepAllOk : PrepareOracle :=
  ⟨true, true, true, .RuntimeHostError, some (.ok [65]), true, 0, true,
    false, 0, true, true, .RuntimeHostError, true⟩

/-- A `run` oracle whose only failure is the assembly load. -/
def loadFailOracle : RunOracle :=
  ⟨prepAllOk, false, .GenericError "load failed", true, .GenericError "",
    true, .GenericError "", true, .GenericError "", true, .GenericError "",
    true, .GenericError "", true, .GenericError "", "", true,
    .GenericError "", 0⟩

/-- The default configuration: no output redirection, no exit patch, no
arguments. -/
def plainConfig : RunConfig := ⟨false, false, false⟩

/-- C4, counterexample: the claim says teardown proceeds as unload domain
then stop runtime on every error path, but when the assembly load fails
after a fully successful `prepare`, `run` returns the load error without
ever unloading the domain, and the subsequent `Drop` stops the runtime, so
the combined trace contains a `stopRuntime` call and no `unloadDomainCall`
at all. -/
theorem run_teardown_claim_counterexample :
    NativeCall.stopRuntime ∈ lifecycle plainConfig loadFailOracle ∧
    NativeCall.unloadDomainCall ∉ lifecycle plainConfig loadFailOracle ∧
    (run plainConfig loadFailOracle).1 =
      some (.error (.GenericError "load failed")) :=
  ⟨by decide, by decide, rfl⟩

/-- C4, witness: on the load-failure path the lifecycle trace is teardown
ordered and the pending primary error is the one returned. -/
theorem run_teardown_witness :
    teardownOrdered (lifecycle plainConfig loadFailOracle) = true ∧
    (run plainConfig loadFailOracle).1 =
      some (.error (.GenericError "load failed")) :=
  ⟨(run_teardown plainConfig loadFailOracle).1,
   (run_teardown plainConfig loadFailOracle).2.1
     (.GenericError "load failed") rfl rfl⟩

/-- COR_E_APPDOMAINUNLOADED (0x80131014) as an `i32`: the status the
runtime reports when unloading an already-unloaded domain. -/
def HR_APPDOMAIN_UNLOADED : Int := 0x80131014 - 0x100000000

/-- C5, counterexample: the claim says a second `unload_domain` after a
successful unload is a no-op rather than an error, but `unload_domain`
takes `&self` and never clears the stored domain reference, so the second
call (the state is unchanged by the first) repeats the native
`UnloadDomain` call — its trace is not empty — and surfaces the runtime's
already-unloaded status as an error. -/
theorem unloadDomain_claim_counterexample :
    unload_domain ⟨[65], true, true⟩ 0 = (.ok (), [.unloadDomainCall]) ∧
    unload_domain ⟨[65], true, true⟩ HR_APPDOMAIN_UNLOADED =
      (.error (.ApiError "UnloadDomain" HR_APPDOMAIN_UNLOADED),
        [.unloadDomainCall]) ∧
    (unload_domain ⟨[65], true, true⟩ HR_APPDOMAIN_UNLOADED).2 ≠ [] :=
  ⟨rfl, rfl, by decide⟩

/-- C5 (amended): `unload_domain` with no application domain present or no
saved runtime host returns `Ok` without making any native call and without
crashing; but the stored domain reference is never cleared, so whenever
both are present — including after an earlier successful unload — the
native `UnloadDomain` call is repeated and a non-zero status is returned
as an error rather than being a no-op. -/
theorem unloadDomain_cases (st : ClrState) (hr : Int) :
    ((st.cor_runtime_host = false ∨ st.app_domain = false) →
      unload_domain st hr = (.ok (), []))
    ∧ (st.cor_runtime_host = true → st.app_domain = true → hr = 0 →
      unload_domain st hr = (.ok (), [.unloadDomainCall]))
    ∧ (st.cor_runtime_host = true → st.app_domain = true → hr ≠ 0 →
      unload_domain st hr =
        (.error (.ApiError "UnloadDomain" hr), [.unloadDomainCall])) := by
  refine ⟨?_, ?_, ?_⟩
  · intro h
    rcases h with h | h <;> simp [unload_domain, h]
  · intro h1 h2 h3
    simp [unload_domain, h1, h2, h3]
  · intro h1 h2 h3
    simp [unload_domain, h1, h2, h3]

/-- C5, witness: unloading with nothing prepared is an error-free no-op;
unloading with a domain present makes the one native call and succeeds on
status 0. -/
theorem unloadDomain_cases_witness :
    unload_domain ⟨[], false, false⟩ 0 = (.ok (), []) ∧
    unload_domain ⟨[65], true, true⟩ 0 = (.ok (), [.unloadDomainCall]) :=
  ⟨(unloadDomain_cases ⟨[], false, false⟩ 0).1 (Or.inl rfl),
   (unloadDomain_cases ⟨[65], true, true⟩ 0).2.1 rfl rfl rfl⟩

/-- C6: in every execution of `prepare` — and hence of `run` and the full
lifecycle including `Drop` — the host control carrying the Bind
Interceptor is registered via `SetHostControl` strictly before any `Start`
call; there is no execution in which a `startRuntime` call occurs before
the `setHostControl` call. -/
theorem prepare_registers_before_start (cfg : RunConfig) (o : RunOracle) :
    noStartBeforeRegister (prepare o.prep).2.2 = true ∧
    noStartBeforeRegister (lifecycle cfg o) = true := by
  have hp := (Bool.and_eq_true_iff.mp (prepare_trace_props o.prep)).1
  refine ⟨hp, ?_⟩
  have hbstart := runBody_trace_no_start cfg o
  have hdropstart : ∀ st : ClrState, NativeCall.startRuntime ∉ rcDrop st := by
    intro st
    rcases rcDrop_cases st with h | h <;> rw [h] <;> decide
  rcases hpr : prepare o.prep with ⟨res, st, tr⟩
  rw [hpr] at hp
  simp only at hp
  rcases res with _ | res
  · have hl : lifecycle cfg o = tr := by
      simp only [lifecycle, run, hpr]
    rw [hl]
    exact hp
  · rcases res with e | u
    · have hl : lifecycle cfg o = tr ++ rcDrop st := by
        simp only [lifecycle, run, hpr]
      rw [hl]
      exact noStartBeforeRegister_append tr (rcDrop st) hp (hdropstart st)
    · rcases hb : runBody cfg o with ⟨bres, btr⟩
      rw [hb] at hbstart
      simp only at hbstart
      rcases bres with be | bout
      · have hl : lifecycle cfg o = (tr ++ btr) ++ rcDrop st := by
          simp only [lifecycle, run, hpr, hb]
        rw [hl]
        exact noStartBeforeRegister_append _ _
          (noStartBeforeRegister_append tr btr hp hbstart) (hdropstart st)
      · have hutr := unload_domain_trace st o.unloadHr
        rcases hu : unload_domain st o.unloadHr with ⟨ures, utr⟩
        rw [hu] at hutr
        simp only at hutr
        have hustart : NativeCall.startRuntime ∉ utr := by
          rcases hutr with h | h <;> subst h <;> decide
        have hl : lifecycle cfg o = ((tr ++ btr) ++ utr) ++ rcDrop st := by
          rcases ures with ue | uu <;>
            simp [lifecycle, run, hpr, hb, hu, List.append_assoc]
        rw [hl]
        exact noStartBeforeRegister_append _ _
          (noStartBeforeRegister_append _ _
            (noStartBeforeRegister_append tr btr hp hbstart) hustart)
          (hdropstart st)

end RustClr
